import Mathlib

/-!
# go-slackbot: context carrier, event normaliser, typing delay, transport loops

A shallow embedding of `context.go`, `socket.go` and `bot.go`.

* Pointers to events are `Option` values (`none` is the nil pointer); the
  pointer to the mutable `Bot` is an address.
* `context.Context` values are pointers into an allocation log of `valueCtx`
  nodes, so that enriching a carrier is an allocation and the older carriers
  can still be read in the memory that results from it.
* The transport loops are modelled by the body of one iteration, which
  returns the actions it performed in order.
-/

namespace Slackbot

/-! ## External data types (github.com/slack-go/slack) -/

namespace slack

/-- Icon of a message: `slack.Icon` and `slackevents.Icon` have the same
underlying struct (the source converts a pointer to one into a pointer to
the other), so one structure stands for both. -/
structure Icon where
  IconURL : String
  IconEmoji : String
deriving DecidableEq, Repr

/-- The canonical message event `slack.MessageEvent`, flattened: the fields
that this repository assigns or reads are listed by name, and `rest` holds
every other field of the external declaration (`Rest` is a parameter; its
`default` is the Go zero value). The field `Type` is written `Type_`. -/
structure MessageEvent (Rest : Type) where
  ClientMsgID : String
  Type_ : String
  User : String
  Text : String
  ThreadTimestamp : String
  Timestamp : String
  Channel : String
  EventTimestamp : String
  SubType : String
  BotID : String
  Username : String
  Icons : Option Icon
  Upload : Bool
  rest : Rest
deriving DecidableEq, Repr

/-- The item of a reaction, `slack.ReactionItem`. -/
structure ReactionItem where
  Type_ : String
  Channel : String
  File : String
  FileComment : String
  Timestamp : String
deriving DecidableEq, Repr

/-- The canonical event `slack.ReactionAddedEvent`. -/
structure ReactionAddedEvent where
  Type_ : String
  User : String
  ItemUser : String
  Item : ReactionItem
  Reaction : String
  EventTimestamp : String
deriving DecidableEq, Repr

/-- The canonical event `slack.ReactionRemovedEvent`. -/
structure ReactionRemovedEvent where
  Type_ : String
  User : String
  ItemUser : String
  Item : ReactionItem
  Reaction : String
  EventTimestamp : String
deriving DecidableEq, Repr

end slack

/-- A `*Bot`: the address of the bot. The nil pointer is `none : Option BotRef`. -/
structure BotRef where
  addr : Nat
deriving DecidableEq, Repr

/-! ## context.go: keys -/

def BOT_CONTEXT : String := "__BOT_CONTEXT__"
def MESSAGE_CONTEXT : String := "__MESSAGE_CONTEXT__"
def REACTION_CONTEXT : String := "__REACTION_CONTEXT__"
def REACTION_EVENT : String := "__REACTION_EVENT__"
def BOT_DEBUG : String := "__BOT_DEBUG__"
def CHANNEL_CONTEXT : String := "__CHANNEL_CONTEXT__"
def CHANNEL_JOINED : String := "__CHANNEL_JOINED__"
def CHANNEL_LEFT : String := "__CHANNEL_LEFT__"

/-! ## The context carrier (package context) -/

/-- An `interface{}` value stored in a context: the dynamic type is the
constructor. A pointer constructor applied to `none` is the typed nil pointer;
`other` is a value of any type this package never asserts. -/
inductive Any (Rest : Type) where
  | bot (b : Option BotRef)
  | message (m : Option (slack.MessageEvent Rest))
  | reactionAdded (r : Option slack.ReactionAddedEvent)
  | reactionRemoved (r : Option slack.ReactionRemovedEvent)
  | str (s : String)
  | bool (b : Bool)
  | other (dynType : String)
deriving DecidableEq, Repr

/-- A `context.Context`: the background context, or a pointer to a `valueCtx`
node, given by its address. -/
inductive Ctx where
  | background
  | node (addr : Nat)
deriving DecidableEq, Repr

/-- Modelled from the spec: the node type of the external context package
("each node derived from a parent by adding exactly one binding"): the
parent carrier, the key and the value. -/
structure ValueCtx (Rest : Type) where
  parent : Ctx
  key : String
  val : Any Rest
deriving DecidableEq, Repr

/-- Modelled from the spec: the memory that holds the carriers, as the log of
the allocated nodes, newest first. The node at address `a` is the one
allocated when `a` nodes existed, so it has `a` nodes after it in the list. -/
abbrev Heap (Rest : Type) := List (ValueCtx Rest)

/-- A carrier exists in a memory: it is the background context or the address
of a node that was allocated. -/
def Ctx.validIn {Rest : Type} (c : Ctx) (h : Heap Rest) : Prop :=
  match c with
  | .background => True
  | .node a => a < h.length

instance {Rest : Type} (c : Ctx) (h : Heap Rest) : Decidable (c.validIn h) :=
  match c with
  | .background => isTrue trivial
  | .node a => inferInstanceAs (Decidable (a < h.length))

/-- The call `context.Background()`. -/
def Background : Ctx := .background

/-- Modelled from the spec: `context.WithValue(parent, key, val)` of the
external context package ("every enrichment returns a new carrier referencing
its parent"): a node is allocated and its address returned; no existing node
is written. -/
def WithValue {Rest : Type} (h : Heap Rest) (parent : Ctx) (key : String)
    (val : Any Rest) : Heap Rest × Ctx :=
  (⟨parent, key, val⟩ :: h, .node h.length)

/-- Modelled from the spec: `ctx.Value(key)` of the external context package
("lookup walks from the most recent binding outward; absence yields a defined
not-present result"). The node the pointer designates is reached by skipping
the nodes allocated after it; if its key is the one asked for its value is
the answer, otherwise the search goes on from its parent, among the older
nodes. `none` is the nil interface. -/
def Ctx.Value {Rest : Type} : Heap Rest → Ctx → String → Option (Any Rest)
  | [], _, _ => none
  | n :: older, c, key =>
    if c = .node older.length then
      if n.key = key then some n.val else Ctx.Value older n.parent key
    else Ctx.Value older c key

/-- The bindings a lookup on the carrier goes through, most recent first. -/
def Ctx.bindings {Rest : Type} : Heap Rest → Ctx → List (String × Any Rest)
  | [], _ => []
  | n :: older, c =>
    if c = .node older.length then (n.key, n.val) :: Ctx.bindings older n.parent
    else Ctx.bindings older c

/-! ## context.go: enrichment and accessors -/

def BotFromContext {Rest : Type} (h : Heap Rest) (ctx : Ctx) : Option BotRef :=
  match ctx.Value h BOT_CONTEXT with
  | some (.bot result) => result
  | _ => none

def AddBotToContext {Rest : Type} (h : Heap Rest) (ctx : Ctx) (bot : Option BotRef) :
    Heap Rest × Ctx :=
  WithValue h ctx BOT_CONTEXT (.bot bot)

def MessageFromContext {Rest : Type} (h : Heap Rest) (ctx : Ctx) :
    Option (slack.MessageEvent Rest) :=
  match ctx.Value h MESSAGE_CONTEXT with
  | some (.message result) => result
  | _ => none

def AddMessageToContext {Rest : Type} (h : Heap Rest) (ctx : Ctx)
    (msg : Option (slack.MessageEvent Rest)) : Heap Rest × Ctx :=
  WithValue h ctx MESSAGE_CONTEXT (.message msg)

def AddReactionAddedToContext {Rest : Type} (h : Heap Rest) (ctx : Ctx)
    (react : Option slack.ReactionAddedEvent) : Heap Rest × Ctx :=
  let (h1, nctx) := WithValue h ctx REACTION_CONTEXT (.str "Added")
  WithValue h1 nctx REACTION_EVENT (.reactionAdded react)

def AddReactionRemovedToContext {Rest : Type} (h : Heap Rest) (ctx : Ctx)
    (react : Option slack.ReactionRemovedEvent) : Heap Rest × Ctx :=
  let (h1, nctx) := WithValue h ctx REACTION_CONTEXT (.str "Removed")
  WithValue h1 nctx REACTION_EVENT (.reactionRemoved react)

def ReactionTypeFromContext {Rest : Type} (h : Heap Rest) (ctx : Ctx) : String :=
  match ctx.Value h REACTION_CONTEXT with
  | some (.str result) => result
  | _ => ""

def ReactionAddedFromContext {Rest : Type} (h : Heap Rest) (ctx : Ctx) :
    Option slack.ReactionAddedEvent :=
  match ctx.Value h REACTION_EVENT with
  | some (.reactionAdded result) => result
  | _ => none

def ReactionRemovedFromContext {Rest : Type} (h : Heap Rest) (ctx : Ctx) :
    Option slack.ReactionRemovedEvent :=
  match ctx.Value h REACTION_EVENT with
  | some (.reactionRemoved result) => result
  | _ => none

def SetDebug {Rest : Type} (h : Heap Rest) (ctx : Ctx) : Heap Rest × Ctx :=
  WithValue h ctx BOT_DEBUG (.bool true)

def IsDebug {Rest : Type} (h : Heap Rest) (ctx : Ctx) : Bool :=
  match ctx.Value h BOT_DEBUG with
  | some (.bool result) => result
  | _ => false

/-! ## External data types (slackevents, socketmode) -/

namespace slackevents

/-- The socket-mode message event `slackevents.MessageEvent`: the fields that
`ConvertMessageEvent` and the transport loop read. -/
structure MessageEvent where
  ClientMsgID : String
  Type_ : String
  User : String
  Text : String
  ThreadTimeStamp : String
  TimeStamp : String
  Channel : String
  EventTimeStamp : String
  SubType : String
  BotID : String
  Username : String
  Icons : Option slack.Icon
  Upload : Bool
deriving DecidableEq, Repr

/-- The item of a socket-mode reaction, `slackevents.Item`: the fields read. -/
structure Item where
  Type_ : String
  Channel : String
  Timestamp : String
deriving DecidableEq, Repr

/-- The socket-mode event `slackevents.ReactionAddedEvent`. -/
structure ReactionAddedEvent where
  Type_ : String
  User : String
  Reaction : String
  ItemUser : String
  Item : Item
  EventTimestamp : String
deriving DecidableEq, Repr

/-- The socket-mode event `slackevents.ReactionRemovedEvent`. -/
structure ReactionRemovedEvent where
  Type_ : String
  User : String
  Reaction : String
  ItemUser : String
  Item : Item
  EventTimestamp : String
deriving DecidableEq, Repr

/-- The dynamic type of `innerEvent.Data`, as the type switch sees it. -/
inductive InnerEventData where
  | MessageEvent (ev : MessageEvent)
  | ReactionAddedEvent (ev : ReactionAddedEvent)
  | ReactionRemovedEvent (ev : ReactionRemovedEvent)
  | other
deriving DecidableEq, Repr

/-- The field `eventsAPIEvent.Type`: `slackevents.CallbackEvent` or another
type name. -/
inductive EventsAPIType where
  | CallbackEvent
  | other (name : String)
deriving DecidableEq, Repr

/-- The event `slackevents.EventsAPIEvent`: the fields read. -/
structure EventsAPIEvent where
  Type_ : EventsAPIType
  InnerEvent : InnerEventData
deriving DecidableEq, Repr

end slackevents

namespace socketmode

/-- The field `evt.Type`: one of the `socketmode.EventType...` constants the
loop switches on, or another type name. -/
inductive EventType where
  | Connecting
  | ConnectionError
  | Connected
  | Hello
  | EventsAPI
  | Interactive
  | SlashCommand
  | other (name : String)
deriving DecidableEq, Repr

/-- The dynamic type of `evt.Data`: the assertion to
`slackevents.EventsAPIEvent` succeeds or fails. -/
inductive EventData where
  | EventsAPIEvent (e : slackevents.EventsAPIEvent)
  | other
deriving DecidableEq, Repr

/-- The event `socketmode.Event`. -/
structure Event where
  Type_ : EventType
  Data : EventData
deriving DecidableEq, Repr

end socketmode

/-- The dynamic type of `msg.Data` of an RTM event, as the type switch of
`RunRTM` sees it. `ConnectedEvent` carries `ev.Info.User.ID`. -/
inductive RTMData (Rest : Type) where
  | ConnectedEvent (userID : String)
  | MessageEvent (ev : slack.MessageEvent Rest)
  | ReactionAddedEvent (ev : slack.ReactionAddedEvent)
  | ReactionRemovedEvent (ev : slack.ReactionRemovedEvent)
  | RTMError
  | InvalidAuthEvent
  | other
deriving DecidableEq, Repr

/-- Modelled from the spec: the message subtypes of the external slack
package that the RTM loop filters, named in the data model of the spec. -/
def MsgSubTypeMessageReplied : String := "message_replied"

/-- Modelled from the spec: see `MsgSubTypeMessageReplied`. -/
def MsgSubTypeThreadBroadcast : String := "thread_broadcast"

/-- Modelled from the spec: see `MsgSubTypeMessageReplied`. -/
def MsgSubTypeBotMessage : String := "bot_message"

/-! ## socket.go: the event normaliser -/

def ConvertMessageEvent {Rest : Type} [Inhabited Rest] (evt : slackevents.MessageEvent) :
    slack.MessageEvent Rest :=
  { ClientMsgID := evt.ClientMsgID
    Type_ := evt.Type_
    User := evt.User
    Text := evt.Text
    ThreadTimestamp := evt.ThreadTimeStamp
    Timestamp := evt.TimeStamp
    Channel := evt.Channel
    EventTimestamp := evt.EventTimeStamp
    SubType := evt.SubType
    BotID := evt.BotID
    Username := evt.Username
    Icons := evt.Icons
    Upload := evt.Upload
    rest := default }

def ConvertReactionAdded (evt : slackevents.ReactionAddedEvent) : slack.ReactionAddedEvent :=
  { Type_ := evt.Type_
    User := evt.User
    ItemUser := evt.ItemUser
    Reaction := evt.Reaction
    EventTimestamp := evt.EventTimestamp
    Item :=
      { Type_ := evt.Item.Type_
        Channel := evt.Item.Channel
        Timestamp := evt.Item.Timestamp
        File := ""
        FileComment := "" } }

def ConvertReactionRemoved (evt : slackevents.ReactionRemovedEvent) :
    slack.ReactionRemovedEvent :=
  { Type_ := evt.Type_
    User := evt.User
    ItemUser := evt.ItemUser
    Reaction := evt.Reaction
    EventTimestamp := evt.EventTimestamp
    Item :=
      { Type_ := evt.Item.Type_
        Channel := evt.Item.Channel
        Timestamp := evt.Item.Timestamp
        File := ""
        FileComment := "" } }

/-! ## bot.go: the bot and the transport loops -/

/-- The state of a `Bot` that the loops read or write. -/
structure Bot where
  botUserID : String
  Debug : Bool
  EventMode : String
deriving DecidableEq, Repr

def Bot.BotUserID (b : Bot) : String := b.botUserID

def Bot.SetBotID (b : Bot) (ID : String) : Bot := { b with botUserID := ID }

/-- What a call `b.Match(ctx, &match)` leaves: the two results, the memory
after the call (the matcher may derive new carriers) and `match.Handler`. -/
structure MatchOutcome (Rest H : Type) where
  matched : Bool
  heap : Heap Rest
  ctx : Ctx
  Handler : H

/-- The method `b.Match`. Its definition is not among the sources, so the
loops take it as a parameter: any function of the bot, the memory and the
carrier. `H` is the type of handlers. -/
abbrev Matcher (Rest H : Type) := Bot → Heap Rest → Ctx → MatchOutcome Rest H

/-- What one iteration of a transport loop does, in order. `print` is a
write to standard output, standard error or the log, with its format string;
`Match` is a call of `b.Match` on a carrier; `Handler` is the call
`match.Handler(ctx)`. -/
inductive Action (Rest H : Type) where
  | print (format : String)
  | ack
  | debugf (format : String)
  | Match (h : Heap Rest) (ctx : Ctx)
  | Handler (handler : H) (h : Heap Rest) (ctx : Ctx)
deriving DecidableEq, Repr

/-- The carriers given to `b.Match`, one per call, in order, each with the
memory at the call. -/
def matchCalls {Rest H : Type} : List (Action Rest H) → List (Heap Rest × Ctx)
  | [] => []
  | .Match h ctx :: rest => (h, ctx) :: matchCalls rest
  | _ :: rest => matchCalls rest

/-- The handlers invoked, one per invocation, in order, each with the memory
and the carrier it is invoked on. -/
def handlerCalls {Rest H : Type} : List (Action Rest H) → List (H × Heap Rest × Ctx)
  | [] => []
  | .Handler handler h ctx :: rest => (handler, h, ctx) :: handlerCalls rest
  | _ :: rest => handlerCalls rest

/-- The canonical messages that the carriers given to `b.Match` expose, one
per call of `b.Match`. -/
def messagesGivenToMatch {Rest H : Type} (actions : List (Action Rest H)) :
    List (Option (slack.MessageEvent Rest)) :=
  (matchCalls actions).map fun p => MessageFromContext p.1 p.2

/-- The dispatch block that each event case of both loops ends with:
`var match RouteMatch; if matched, ctx := b.Match(ctx, &match); matched
{ match.Handler(ctx) }`. -/
def dispatch {Rest H : Type} (Match : Matcher Rest H) (b : Bot) (h : Heap Rest)
    (ctx : Ctx) : List (Action Rest H) :=
  let r := Match b h ctx
  if r.matched then [.Match h ctx, .Handler r.Handler r.heap r.ctx]
  else [.Match h ctx]

/-- The body of the loop of `RunRTM` for one incoming event: the bot
afterwards and the actions performed. `self` is the receiver pointer. -/
def RunRTM {Rest H : Type} (Match : Matcher Rest H) (self : BotRef) (b : Bot)
    (h : Heap Rest) (msg : RTMData Rest) : Bot × List (Action Rest H) :=
  let ctx := Background
  let (h, ctx) := AddBotToContext h ctx (some self)
  let (h, ctx) := if b.Debug then SetDebug h ctx else (h, ctx)
  match msg with
  | .ConnectedEvent userID => (b.SetBotID userID, [.print "Connected: %#v\n"])
  | .MessageEvent ev =>
    if b.botUserID = ev.User then (b, [])
    else if ev.SubType = MsgSubTypeMessageReplied then (b, [])
    else if ev.SubType = MsgSubTypeThreadBroadcast then (b, [])
    else if ev.SubType = MsgSubTypeBotMessage then (b, [])
    else
      let (h, ctx) := AddMessageToContext h ctx (some ev)
      (b, dispatch Match b h ctx)
  | .ReactionAddedEvent ev =>
    if b.botUserID = ev.User then (b, [])
    else
      let (h, ctx) := AddReactionAddedToContext h ctx (some ev)
      (b, dispatch Match b h ctx)
  | .ReactionRemovedEvent ev =>
    if b.botUserID = ev.User then (b, [])
    else
      let (h, ctx) := AddReactionRemovedToContext h ctx (some ev)
      (b, dispatch Match b h ctx)
  | .RTMError => (b, [.print "Error: %s\n"])
  | .InvalidAuthEvent => (b, [.print "Invalid credentials"])
  | .other => (b, [])

/-- The body of the loop of `RunSocketMode` for one incoming event: the
actions performed. The loop never writes the bot. -/
def RunSocketMode {Rest H : Type} [Inhabited Rest] (Match : Matcher Rest H)
    (self : BotRef) (b : Bot) (h : Heap Rest) (evt : socketmode.Event) :
    List (Action Rest H) :=
  let ctx := Background
  let (h, ctx) := AddBotToContext h ctx (some self)
  let (h, ctx) := if b.Debug then SetDebug h ctx else (h, ctx)
  let log : List (Action Rest H) := if b.Debug then [.print "Event Type: %s"] else []
  match evt.Type_ with
  | .Connecting => log ++ [.print "Connecting to Slack with Socket Mode..."]
  | .ConnectionError => log ++ [.print "Connection failed. Retrying later..."]
  | .Connected => log ++ [.print "Connected to Slack with Socket Mode."]
  | .Hello => log ++ [.print "Slack says hello"]
  | .EventsAPI =>
    match evt.Data with
    | .other => log ++ [.print "Ignored %+v\n"]
    | .EventsAPIEvent eventsAPIEvent =>
      let pre := log ++ [.print "Event received: %+v\n", .ack]
      match eventsAPIEvent.Type_ with
      | .CallbackEvent =>
        match eventsAPIEvent.InnerEvent with
        | .MessageEvent ev =>
          if b.botUserID = ev.User then pre
          else
            let (h, ctx) := AddMessageToContext h ctx (some (ConvertMessageEvent ev))
            pre ++ dispatch Match b h ctx
        | .ReactionAddedEvent ev =>
          if b.botUserID = ev.User then pre
          else
            let (h, ctx) := AddReactionAddedToContext h ctx (some (ConvertReactionAdded ev))
            pre ++ dispatch Match b h ctx
        | .ReactionRemovedEvent ev =>
          if b.botUserID = ev.User then pre
          else
            let (h, ctx) :=
              AddReactionRemovedToContext h ctx (some (ConvertReactionRemoved ev))
            pre ++ dispatch Match b h ctx
        | .other => pre
      | .other _ => pre ++ [.debugf "unsupported Events API event received"]
  | .Interactive => log
  | .SlashCommand => log
  | .other _ => log ++ [.print "Unexpected event type received: %s\n"]

/-! ## bot.go: the typing simulator -/

/-- The value of an `int64` computation: the result wrapped into
`[-2^63, 2^63)`. -/
def wrapInt64 (x : Int) : Int := (x + 2 ^ 63) % 2 ^ 64 - 2 ^ 63

/-- A `time.Duration`: a number of nanoseconds held in an `int64`. -/
abbrev Duration := Int

/-- The constant `time.Millisecond`. -/
def Millisecond : Duration := 1000000

/-- The constant `time.Minute`. -/
def Minute : Duration := 60000000000

def maxTypingSleep : Duration := Millisecond * 2000

/-- The `msg interface{}` argument of `Type` and `msgLen`, by dynamic type:
nil, a string, a `[]slack.Attachment` (`A` stands for `slack.Attachment`), or
a value of any other type, with the name of that type. -/
inductive Payload (A : Type) where
  | nil
  | string (m : String)
  | attachments (m : List A)
  | other (dynType : String)
deriving DecidableEq, Repr

/-- The function `msgLen`. `sprintf` is `fmt.Sprintf("%#v", m)` on attachment
slices, a parameter; `len` of a string is its number of bytes. -/
def msgLen {A : Type} (sprintf : List A → String) (msg : Payload A) : Nat :=
  match msg with
  | .string m => m.utf8ByteSize
  | .attachments m => (sprintf m).utf8ByteSize
  | _ => 0

/-- The duration that `Type` computes and sleeps for, from the length that
`msgLen` returned: `time.Minute * time.Duration(msgLen) / 3000` in `int64`
arithmetic (the product wraps, the quotient truncates), capped at
`maxTypingSleep`. -/
def sleepDuration (msgLen : Nat) : Duration :=
  let sleepDuration := Int.tdiv (wrapInt64 (Minute * wrapInt64 msgLen)) 3000
  if sleepDuration > maxTypingSleep then maxTypingSleep else sleepDuration

/-- What `Type` does, in order. -/
inductive TypeAction where
  | SendTypingMessage (channel : String)
  | Sleep (d : Duration)
deriving DecidableEq, Repr

/-- The method `Bot.Type`. -/
def Bot.Type_ {A Rest : Type} (sprintf : List A → String) (evt : slack.MessageEvent Rest)
    (msg : Payload A) : List TypeAction :=
  let msgLen := msgLen sprintf msg
  let sleepDuration := sleepDuration msgLen
  [.SendTypingMessage evt.Channel, .Sleep sleepDuration]

/-! ## Concrete inputs -/

/-- A message from the user `U1`. -/
def exampleMessage : slack.MessageEvent Unit :=
  { ClientMsgID := "c-1", Type_ := "message", User := "U1", Text := "How are you today?",
    ThreadTimestamp := "", Timestamp := "1700000000.000100", Channel := "C1",
    EventTimestamp := "1700000000.000100", SubType := "", BotID := "", Username := "",
    Icons := none, Upload := false, rest := () }

/-- A reaction added by the user `U1`. -/
def exampleReactionAdded : slack.ReactionAddedEvent :=
  { Type_ := "reaction_added", User := "U1", ItemUser := "U2",
    Item := { Type_ := "message", Channel := "C1", File := "", FileComment := "",
              Timestamp := "1700000000.000100" },
    Reaction := "thumbsup", EventTimestamp := "1700000001.000200" }

/-- A reaction removed by the user `U1`. -/
def exampleReactionRemoved : slack.ReactionRemovedEvent :=
  { Type_ := "reaction_removed", User := "U1", ItemUser := "U2",
    Item := { Type_ := "message", Channel := "C1", File := "", FileComment := "",
              Timestamp := "1700000000.000100" },
    Reaction := "thumbsup", EventTimestamp := "1700000002.000300" }

/-- The memory and the carrier that `AddBotToContext`, `SetDebug`,
`AddMessageToContext` and `AddReactionAddedToContext` build, in this order,
from the background carrier in the empty memory. -/
def exampleCarrier : Heap Unit × Ctx :=
  let (h, ctx) := AddBotToContext [] Background (some ⟨7⟩)
  let (h, ctx) := SetDebug h ctx
  let (h, ctx) := AddMessageToContext h ctx (some exampleMessage)
  AddReactionAddedToContext h ctx (some exampleReactionAdded)

/-- The memory and the carrier that `AddMessageToContext` and
`AddReactionRemovedToContext` build from the background carrier: no bot, no
debug flag and no added reaction is bound. -/
def exampleCarrierRemoved : Heap Unit × Ctx :=
  let (h, ctx) := AddMessageToContext [] Background (some exampleMessage)
  AddReactionRemovedToContext h ctx (some exampleReactionRemoved)

/-- A bot in socket mode whose identity is `UBOT`. -/
def exampleBot : Bot := { botUserID := "UBOT", Debug := false, EventMode := "Socket" }

/-- A matcher that matches every event and resolves the handler `H1`,
leaving the carrier as it is. -/
def alwaysMatch : Matcher Unit String := fun _ h ctx =>
  { matched := true, heap := h, ctx := ctx, Handler := "H1" }

/-- A matcher that matches no event. -/
def neverMatch : Matcher Unit String := fun _ h ctx =>
  { matched := false, heap := h, ctx := ctx, Handler := "" }

/-- A socket-mode message from the user `U1`. -/
def exampleSocketMessage : slackevents.MessageEvent :=
  { ClientMsgID := "c-1", Type_ := "message", User := "U1", Text := "How are you today?",
    ThreadTimeStamp := "", TimeStamp := "1700000000.000100", Channel := "C1",
    EventTimeStamp := "1700000000.000100", SubType := "", BotID := "", Username := "",
    Icons := none, Upload := false }

/-- A socket-mode message that another bot, `U1`, wrote: its subtype is
`bot_message`. -/
def botAuthoredSocketMessage : slackevents.MessageEvent :=
  { exampleSocketMessage with SubType := "bot_message", BotID := "B1", Username := "helper" }

/-- A socket-mode message that carries an icon. -/
def socketMessageWithIcon : slackevents.MessageEvent :=
  { exampleSocketMessage with
    Icons := some { IconURL := "https://example.com/icon.png", IconEmoji := ":robot_face:" } }

/-- An RTM message with the channel, user, text and timestamp of
`exampleSocketMessage`, that also names the bot `B1` as its author. -/
def rtmMessageWithBotID : slack.MessageEvent Unit :=
  { exampleMessage with BotID := "B1" }

/-- A socket-mode reaction added by the user `U1`. -/
def exampleSocketReactionAdded : slackevents.ReactionAddedEvent :=
  { Type_ := "reaction_added", User := "U1", Reaction := "thumbsup", ItemUser := "U2",
    Item := { Type_ := "message", Channel := "C1", Timestamp := "1700000000.000100" },
    EventTimestamp := "1700000001.000200" }

/-- A socket-mode reaction removed by the user `U1`. -/
def exampleSocketReactionRemoved : slackevents.ReactionRemovedEvent :=
  { Type_ := "reaction_removed", User := "U1", Reaction := "thumbsup", ItemUser := "U2",
    Item := { Type_ := "message", Channel := "C1", Timestamp := "1700000000.000100" },
    EventTimestamp := "1700000002.000300" }

/-- The socket-mode event that delivers a message to the inner type switch of
`RunSocketMode`. -/
def socketmode.Event.ofMessage (ev : slackevents.MessageEvent) : socketmode.Event :=
  { Type_ := .EventsAPI,
    Data := .EventsAPIEvent { Type_ := .CallbackEvent, InnerEvent := .MessageEvent ev } }

/-- The socket-mode event that delivers an added reaction to the inner type
switch of `RunSocketMode`. -/
def socketmode.Event.ofReactionAdded (ev : slackevents.ReactionAddedEvent) :
    socketmode.Event :=
  { Type_ := .EventsAPI,
    Data := .EventsAPIEvent { Type_ := .CallbackEvent, InnerEvent := .ReactionAddedEvent ev } }

/-- The socket-mode event that delivers a removed reaction to the inner type
switch of `RunSocketMode`. -/
def socketmode.Event.ofReactionRemoved (ev : slackevents.ReactionRemovedEvent) :
    socketmode.Event :=
  { Type_ := .EventsAPI,
    Data := .EventsAPIEvent { Type_ := .CallbackEvent, InnerEvent := .ReactionRemovedEvent ev } }

/-- A text of 3000 characters. -/
def text3000 : String := String.mk (List.replicate 3000 'a')

/-- A rendering of attachment slices, for payloads without attachments. -/
def noSprintf : List Unit → String := fun _ => ""

/-! ## Lemmas on the context carrier -/

/-- Allocating a node leaves the lookups on the carriers that existed before
as they were. -/
theorem Value_cons_of_validIn {Rest : Type} (n : ValueCtx Rest) (h : Heap Rest) (c : Ctx)
    (key : String) (hc : c.validIn h) : Ctx.Value (n :: h) c key = Ctx.Value h c key := by
  have hne : c ≠ .node h.length := by
    intro heq
    subst heq
    exact Nat.lt_irrefl _ hc
  simp [Ctx.Value, hne]

/-- A carrier that existed before an allocation exists after it. -/
theorem validIn_cons {Rest : Type} (n : ValueCtx Rest) (h : Heap Rest) (c : Ctx)
    (hc : c.validIn h) : c.validIn (n :: h) := by
  cases c with
  | background => trivial
  | node a => exact Nat.lt_succ_of_lt hc

/-- The value a lookup returns is one of the bindings the lookup goes through. -/
theorem Value_mem_bindings {Rest : Type} (h : Heap Rest) :
    ∀ (c : Ctx) (key : String) (v : Any Rest),
      Ctx.Value h c key = some v → (key, v) ∈ Ctx.bindings h c := by
  induction h with
  | nil => intro c key v hv; simp [Ctx.Value] at hv
  | cons n older ih =>
    intro c key v hv
    by_cases hc : c = .node older.length
    · by_cases hk : n.key = key
      · simp [Ctx.Value, hc, hk] at hv
        simp [Ctx.bindings, hc, ← hk, hv]
      · simp [Ctx.Value, hc, hk] at hv
        simp only [Ctx.bindings, hc, if_true]
        exact List.mem_cons_of_mem _ (ih _ _ _ hv)
    · simp [Ctx.Value, hc] at hv
      simp only [Ctx.bindings, hc, if_false]
      exact ih _ _ _ hv

/-- The background carrier has no binding, in any memory. -/
theorem Value_background {Rest : Type} (h : Heap Rest) (key : String) :
    Ctx.Value h .background key = none := by
  induction h with
  | nil => rfl
  | cons n older ih => simpa [Ctx.Value] using ih

/-! ## The context carrier: claims C5, C6, C10 -/

/-- C5. Enrichment is non-destructive: for a carrier `C` that exists in the
memory `h`, after any of `AddBotToContext`, `AddMessageToContext`,
`AddReactionAddedToContext`, `AddReactionRemovedToContext` and `SetDebug` on
`C`, each of the six accessors returns on `C`, in the memory that the
enrichment leaves, what it returned before. -/
theorem C5_enrichment_non_destructive {Rest : Type} (h : Heap Rest) (C : Ctx)
    (hC : C.validIn h) (bot : Option BotRef) (msg : Option (slack.MessageEvent Rest))
    (added : Option slack.ReactionAddedEvent) (removed : Option slack.ReactionRemovedEvent) :
    ∀ after ∈ [(AddBotToContext h C bot).1, (AddMessageToContext h C msg).1,
        (AddReactionAddedToContext h C added).1,
        (AddReactionRemovedToContext h C removed).1, (SetDebug h C).1],
      BotFromContext after C = BotFromContext h C ∧
      MessageFromContext after C = MessageFromContext h C ∧
      ReactionTypeFromContext after C = ReactionTypeFromContext h C ∧
      ReactionAddedFromContext after C = ReactionAddedFromContext h C ∧
      ReactionRemovedFromContext after C = ReactionRemovedFromContext h C ∧
      IsDebug after C = IsDebug h C := by
  have one : ∀ (n : ValueCtx Rest) (key : String),
      Ctx.Value (n :: h) C key = Ctx.Value h C key :=
    fun n key => Value_cons_of_validIn n h C key hC
  have two : ∀ (n1 n2 : ValueCtx Rest) (key : String),
      Ctx.Value (n2 :: n1 :: h) C key = Ctx.Value h C key := by
    intro n1 n2 key
    rw [Value_cons_of_validIn n2 (n1 :: h) C key (validIn_cons n1 h C hC)]
    exact one n1 key
  intro after hmem
  simp only [List.mem_cons, List.mem_singleton, List.not_mem_nil, or_false] at hmem
  rcases hmem with rfl | rfl | rfl | rfl | rfl <;>
    simp [AddBotToContext, AddMessageToContext, AddReactionAddedToContext,
      AddReactionRemovedToContext, SetDebug, WithValue, BotFromContext, MessageFromContext,
      ReactionTypeFromContext, ReactionAddedFromContext, ReactionRemovedFromContext, IsDebug,
      one, two]

/-- C5, at a carrier that holds a bot, a debug flag, a message and a
reaction, each enrichment being given a new value. -/
theorem C5_enrichment_non_destructive_witness :
    exampleCarrier.2.validIn exampleCarrier.1 ∧
    ∀ after ∈ [(AddBotToContext exampleCarrier.1 exampleCarrier.2 (some ⟨8⟩)).1,
        (AddMessageToContext exampleCarrier.1 exampleCarrier.2 none).1,
        (AddReactionAddedToContext exampleCarrier.1 exampleCarrier.2 none).1,
        (AddReactionRemovedToContext exampleCarrier.1 exampleCarrier.2
          (some exampleReactionRemoved)).1,
        (SetDebug exampleCarrier.1 exampleCarrier.2).1],
      BotFromContext after exampleCarrier.2 =
        BotFromContext exampleCarrier.1 exampleCarrier.2 ∧
      MessageFromContext after exampleCarrier.2 =
        MessageFromContext exampleCarrier.1 exampleCarrier.2 ∧
      ReactionTypeFromContext after exampleCarrier.2 =
        ReactionTypeFromContext exampleCarrier.1 exampleCarrier.2 ∧
      ReactionAddedFromContext after exampleCarrier.2 =
        ReactionAddedFromContext exampleCarrier.1 exampleCarrier.2 ∧
      ReactionRemovedFromContext after exampleCarrier.2 =
        ReactionRemovedFromContext exampleCarrier.1 exampleCarrier.2 ∧
      IsDebug after exampleCarrier.2 = IsDebug exampleCarrier.1 exampleCarrier.2 :=
  ⟨by decide,
    C5_enrichment_non_destructive exampleCarrier.1 exampleCarrier.2 (by decide) (some ⟨8⟩)
      none none (some exampleReactionRemoved)⟩

/-- C6. A carrier to which the corresponding binding was never added gives
the absent value: `BotFromContext`, `MessageFromContext`,
`ReactionAddedFromContext` and `ReactionRemovedFromContext` return nil,
`ReactionTypeFromContext` the empty string and `IsDebug` false; and all six do
so on the background carrier, in any memory. -/
theorem C6_absent_binding_gives_absent_value {Rest : Type} (h : Heap Rest) (C : Ctx) :
    ((∀ b, (BOT_CONTEXT, Any.bot b) ∉ C.bindings h) → BotFromContext h C = none) ∧
    ((∀ m, (MESSAGE_CONTEXT, Any.message m) ∉ C.bindings h) →
      MessageFromContext h C = none) ∧
    ((∀ r, (REACTION_EVENT, Any.reactionAdded r) ∉ C.bindings h) →
      ReactionAddedFromContext h C = none) ∧
    ((∀ r, (REACTION_EVENT, Any.reactionRemoved r) ∉ C.bindings h) →
      ReactionRemovedFromContext h C = none) ∧
    ((∀ s, (REACTION_CONTEXT, Any.str s) ∉ C.bindings h) →
      ReactionTypeFromContext h C = "") ∧
    ((∀ v, (BOT_DEBUG, Any.bool v) ∉ C.bindings h) → IsDebug h C = false) ∧
    (BotFromContext h Background = none ∧ MessageFromContext h Background = none ∧
      ReactionAddedFromContext h Background = none ∧
      ReactionRemovedFromContext h Background = none ∧
      ReactionTypeFromContext h Background = "" ∧ IsDebug h Background = false) := by
  refine ⟨?_, ?_, ?_, ?_, ?_, ?_, ?_⟩
  · intro hyp
    unfold BotFromContext
    split
    · next result heq => exact absurd (Value_mem_bindings h C _ _ heq) (hyp result)
    · rfl
  · intro hyp
    unfold MessageFromContext
    split
    · next result heq => exact absurd (Value_mem_bindings h C _ _ heq) (hyp result)
    · rfl
  · intro hyp
    unfold ReactionAddedFromContext
    split
    · next result heq => exact absurd (Value_mem_bindings h C _ _ heq) (hyp result)
    · rfl
  · intro hyp
    unfold ReactionRemovedFromContext
    split
    · next result heq => exact absurd (Value_mem_bindings h C _ _ heq) (hyp result)
    · rfl
  · intro hyp
    unfold ReactionTypeFromContext
    split
    · next result heq => exact absurd (Value_mem_bindings h C _ _ heq) (hyp result)
    · rfl
  · intro hyp
    unfold IsDebug
    split
    · next result heq => exact absurd (Value_mem_bindings h C _ _ heq) (hyp result)
    · rfl
  · simp [BotFromContext, MessageFromContext, ReactionAddedFromContext,
      ReactionRemovedFromContext, ReactionTypeFromContext, IsDebug, Background,
      Value_background]

/-- C6, at a carrier that holds a message and a removed reaction only: no
bot, no added reaction and no debug flag was bound, and the three accessors
give the absent value. -/
theorem C6_absent_binding_gives_absent_value_witness :
    ((∀ b, (BOT_CONTEXT, Any.bot b) ∉ exampleCarrierRemoved.2.bindings exampleCarrierRemoved.1) ∧
      BotFromContext exampleCarrierRemoved.1 exampleCarrierRemoved.2 = none) ∧
    ((∀ r, (REACTION_EVENT, Any.reactionAdded r) ∉
        exampleCarrierRemoved.2.bindings exampleCarrierRemoved.1) ∧
      ReactionAddedFromContext exampleCarrierRemoved.1 exampleCarrierRemoved.2 = none) ∧
    ((∀ v, (BOT_DEBUG, Any.bool v) ∉
        exampleCarrierRemoved.2.bindings exampleCarrierRemoved.1) ∧
      IsDebug exampleCarrierRemoved.1 exampleCarrierRemoved.2 = false) :=
  have hb : ∀ b, (BOT_CONTEXT, Any.bot b) ∉
      exampleCarrierRemoved.2.bindings exampleCarrierRemoved.1 := by
    intro b; simp [exampleCarrierRemoved, AddMessageToContext, AddReactionRemovedToContext,
      WithValue, Ctx.bindings, Background]
  have hr : ∀ r, (REACTION_EVENT, Any.reactionAdded r) ∉
      exampleCarrierRemoved.2.bindings exampleCarrierRemoved.1 := by
    intro r; simp [exampleCarrierRemoved, AddMessageToContext, AddReactionRemovedToContext,
      WithValue, Ctx.bindings, Background]
  have hv : ∀ v, (BOT_DEBUG, Any.bool v) ∉
      exampleCarrierRemoved.2.bindings exampleCarrierRemoved.1 := by
    intro v; simp [exampleCarrierRemoved, AddMessageToContext, AddReactionRemovedToContext,
      WithValue, Ctx.bindings, Background]
  ⟨⟨hb, (C6_absent_binding_gives_absent_value _ _).1 hb⟩,
    ⟨hr, (C6_absent_binding_gives_absent_value _ _).2.2.1 hr⟩,
    ⟨hv, (C6_absent_binding_gives_absent_value _ _).2.2.2.2.2.1 hv⟩⟩

/-- C10. The reaction direction and event are exposed consistently, the most
recent binding winning: on the carrier that `AddReactionAddedToContext`
returns for any carrier `C` and event `r`, `ReactionTypeFromContext` is
"Added", `ReactionAddedFromContext` is `r` and `ReactionRemovedFromContext` is
nil; on the one that `AddReactionRemovedToContext` returns,
`ReactionTypeFromContext` is "Removed", `ReactionRemovedFromContext` is `r` and
`ReactionAddedFromContext` is nil. -/
theorem C10_reaction_binding_most_recent_wins {Rest : Type} (h : Heap Rest) (C : Ctx)
    (added : Option slack.ReactionAddedEvent) (removed : Option slack.ReactionRemovedEvent) :
    (ReactionTypeFromContext (AddReactionAddedToContext h C added).1
        (AddReactionAddedToContext h C added).2 = "Added" ∧
      ReactionAddedFromContext (AddReactionAddedToContext h C added).1
        (AddReactionAddedToContext h C added).2 = added ∧
      ReactionRemovedFromContext (AddReactionAddedToContext h C added).1
        (AddReactionAddedToContext h C added).2 = none) ∧
    (ReactionTypeFromContext (AddReactionRemovedToContext h C removed).1
        (AddReactionRemovedToContext h C removed).2 = "Removed" ∧
      ReactionRemovedFromContext (AddReactionRemovedToContext h C removed).1
        (AddReactionRemovedToContext h C removed).2 = removed ∧
      ReactionAddedFromContext (AddReactionRemovedToContext h C removed).1
        (AddReactionRemovedToContext h C removed).2 = none) := by
  have hne : REACTION_EVENT ≠ REACTION_CONTEXT := by decide
  simp [AddReactionAddedToContext, AddReactionRemovedToContext, WithValue,
    ReactionTypeFromContext, ReactionAddedFromContext, ReactionRemovedFromContext,
    Ctx.Value, hne]

/-! ## The transport loops: claims C1, C2, C9 -/

theorem matchCalls_append {Rest H : Type} (xs ys : List (Action Rest H)) :
    matchCalls (xs ++ ys) = matchCalls xs ++ matchCalls ys := by
  induction xs with
  | nil => rfl
  | cons a rest ih => cases a <;> simp [matchCalls, ih]

theorem handlerCalls_append {Rest H : Type} (xs ys : List (Action Rest H)) :
    handlerCalls (xs ++ ys) = handlerCalls xs ++ handlerCalls ys := by
  induction xs with
  | nil => rfl
  | cons a rest ih => cases a <;> simp [handlerCalls, ih]

/-- The dispatch block, after actions that are neither calls of `b.Match` nor
of a handler: one call of `b.Match`, then the resolved handler on the carrier
that `b.Match` returned if it matched, and nothing if it did not. -/
theorem dispatch_once {Rest H : Type} (Match : Matcher Rest H) (b : Bot) (h : Heap Rest)
    (ctx : Ctx) (pre : List (Action Rest H)) (hm : matchCalls pre = [])
    (hh : handlerCalls pre = []) :
    ∃ h1 ctx1, matchCalls (pre ++ dispatch Match b h ctx) = [(h1, ctx1)] ∧
      handlerCalls (pre ++ dispatch Match b h ctx) =
        (if (Match b h1 ctx1).matched then
          [((Match b h1 ctx1).Handler, (Match b h1 ctx1).heap, (Match b h1 ctx1).ctx)]
        else []) ∧
      ((Match b h1 ctx1).matched = false →
        (pre ++ dispatch Match b h ctx).getLast? = some (.Match h1 ctx1)) := by
  refine ⟨h, ctx, ?_, ?_, ?_⟩
  · rw [matchCalls_append, hm]
    unfold dispatch
    by_cases hr : (Match b h ctx).matched <;> simp [hr, matchCalls]
  · rw [handlerCalls_append, hh]
    unfold dispatch
    by_cases hr : (Match b h ctx).matched <;> simp [hr, handlerCalls]
  · intro hr
    unfold dispatch
    simp [hr]

/-- The RTM loop filters the three subtypes: a message whose subtype is
`message_replied`, `thread_broadcast` or `bot_message` makes the iteration do
nothing, whatever the user, the text and the matcher. -/
theorem RunRTM_filters_subtypes {Rest H : Type} (Match : Matcher Rest H) (self : BotRef)
    (b : Bot) (h : Heap Rest) (ev : slack.MessageEvent Rest)
    (hsub : ev.SubType = MsgSubTypeMessageReplied ∨ ev.SubType = MsgSubTypeThreadBroadcast ∨
      ev.SubType = MsgSubTypeBotMessage) :
    RunRTM Match self b h (.MessageEvent ev) = (b, []) := by
  unfold RunRTM
  rcases hsub with hs | hs | hs <;> simp [hs]

/-- C1, on the code: `RunSocketMode` does not filter on the subtype. For the
bot `UBOT` and a socket-mode message of subtype `bot_message` from the user
`U1`, the loop calls `b.Match` once, on a carrier that exposes the converted
message, and invokes the handler `H1` that the matcher resolved; `RunRTM`, given
that converted message, does nothing. -/
theorem C1_socket_mode_dispatches_bot_message :
    botAuthoredSocketMessage.SubType = MsgSubTypeBotMessage ∧
    messagesGivenToMatch
        (RunSocketMode alwaysMatch ⟨1⟩ exampleBot [] (.ofMessage botAuthoredSocketMessage)) =
      [some (ConvertMessageEvent botAuthoredSocketMessage)] ∧
    (handlerCalls
        (RunSocketMode alwaysMatch ⟨1⟩ exampleBot []
          (.ofMessage botAuthoredSocketMessage))).map (fun call => call.1) = ["H1"] ∧
    (RunRTM alwaysMatch ⟨1⟩ exampleBot []
        (.MessageEvent (ConvertMessageEvent botAuthoredSocketMessage))).2 = [] := by
  decide

/-- C2. Self-originated events are never dispatched: for a message, an added
reaction and a removed reaction whose user is the bot identity when the event
is processed, in the RTM loop and in the socket-mode loop, whatever the
identity and the matcher are, the iteration calls neither `b.Match` nor a
handler. -/
theorem C2_self_events_never_dispatched {Rest H : Type} [Inhabited Rest]
    (Match : Matcher Rest H) (self : BotRef) (b : Bot) (h : Heap Rest)
    (m : slack.MessageEvent Rest) (a : slack.ReactionAddedEvent)
    (r : slack.ReactionRemovedEvent) (sm : slackevents.MessageEvent)
    (sa : slackevents.ReactionAddedEvent) (sr : slackevents.ReactionRemovedEvent)
    (hm : m.User = b.botUserID) (ha : a.User = b.botUserID) (hr : r.User = b.botUserID)
    (hsm : sm.User = b.botUserID) (hsa : sa.User = b.botUserID)
    (hsr : sr.User = b.botUserID) :
    ∀ actions ∈ [(RunRTM Match self b h (.MessageEvent m)).2,
        (RunRTM Match self b h (.ReactionAddedEvent a)).2,
        (RunRTM Match self b h (.ReactionRemovedEvent r)).2,
        RunSocketMode Match self b h (.ofMessage sm),
        RunSocketMode Match self b h (.ofReactionAdded sa),
        RunSocketMode Match self b h (.ofReactionRemoved sr)],
      matchCalls actions = [] ∧ handlerCalls actions = [] := by
  intro actions hmem
  simp only [List.mem_cons, List.mem_singleton, List.not_mem_nil, or_false] at hmem
  rcases hmem with rfl | rfl | rfl | rfl | rfl | rfl
  · simp [RunRTM, hm, matchCalls, handlerCalls]
  · simp [RunRTM, ha, matchCalls, handlerCalls]
  · simp [RunRTM, hr, matchCalls, handlerCalls]
  · cases hd : b.Debug <;>
      simp [RunSocketMode, socketmode.Event.ofMessage, hsm, hd, matchCalls, handlerCalls]
  · cases hd : b.Debug <;>
      simp [RunSocketMode, socketmode.Event.ofReactionAdded, hsa, hd, matchCalls,
        handlerCalls]
  · cases hd : b.Debug <;>
      simp [RunSocketMode, socketmode.Event.ofReactionRemoved, hsr, hd, matchCalls,
        handlerCalls]

/-- C2, for the bot `U1` with a matcher that would match every event: the
example message, from the user `U1`, in the RTM loop, and the example removed
reaction, from the user `U1`, in the socket-mode loop. -/
theorem C2_self_events_never_dispatched_witness :
    (matchCalls (RunRTM alwaysMatch ⟨1⟩ ⟨"U1", true, "RTM"⟩ []
        (.MessageEvent exampleMessage)).2 = [] ∧
      handlerCalls (RunRTM alwaysMatch ⟨1⟩ ⟨"U1", true, "RTM"⟩ []
        (.MessageEvent exampleMessage)).2 = []) ∧
    (matchCalls (RunSocketMode alwaysMatch ⟨1⟩ ⟨"U1", true, "RTM"⟩ []
        (.ofReactionRemoved exampleSocketReactionRemoved)) = [] ∧
      handlerCalls (RunSocketMode alwaysMatch ⟨1⟩ ⟨"U1", true, "RTM"⟩ []
        (.ofReactionRemoved exampleSocketReactionRemoved)) = []) :=
  have all := C2_self_events_never_dispatched alwaysMatch ⟨1⟩ ⟨"U1", true, "RTM"⟩ []
    exampleMessage exampleReactionAdded exampleReactionRemoved exampleSocketMessage
    exampleSocketReactionAdded exampleSocketReactionRemoved rfl rfl rfl rfl rfl rfl
  ⟨all _ (by simp), all _ (by simp)⟩

/-- C9. An event that passes the filters is dispatched once: for a message
(not from the bot, of none of the three filtered subtypes), an added reaction
and a removed reaction (not from the bot) in the RTM loop, and for the three
socket-mode events (not from the bot), whatever the matcher does, the
iteration calls `b.Match` exactly once; if the call reports a match, the
handler it resolved is invoked exactly once, on the carrier the call
returned, and no other handler is; if it reports none, no handler is invoked
and the call of `b.Match` is the last action of the iteration. -/
theorem C9_dispatch_once {Rest H : Type} [Inhabited Rest]
    (Match : Matcher Rest H) (self : BotRef) (b : Bot) (h : Heap Rest)
    (m : slack.MessageEvent Rest) (a : slack.ReactionAddedEvent)
    (r : slack.ReactionRemovedEvent) (sm : slackevents.MessageEvent)
    (sa : slackevents.ReactionAddedEvent) (sr : slackevents.ReactionRemovedEvent)
    (hm : b.botUserID ≠ m.User) (hm1 : m.SubType ≠ MsgSubTypeMessageReplied)
    (hm2 : m.SubType ≠ MsgSubTypeThreadBroadcast) (hm3 : m.SubType ≠ MsgSubTypeBotMessage)
    (ha : b.botUserID ≠ a.User) (hr : b.botUserID ≠ r.User)
    (hsm : b.botUserID ≠ sm.User) (hsa : b.botUserID ≠ sa.User)
    (hsr : b.botUserID ≠ sr.User) :
    ∀ actions ∈ [(RunRTM Match self b h (.MessageEvent m)).2,
        (RunRTM Match self b h (.ReactionAddedEvent a)).2,
        (RunRTM Match self b h (.ReactionRemovedEvent r)).2,
        RunSocketMode Match self b h (.ofMessage sm),
        RunSocketMode Match self b h (.ofReactionAdded sa),
        RunSocketMode Match self b h (.ofReactionRemoved sr)],
      ∃ h1 ctx1, matchCalls actions = [(h1, ctx1)] ∧
        handlerCalls actions =
          (if (Match b h1 ctx1).matched then
            [((Match b h1 ctx1).Handler, (Match b h1 ctx1).heap, (Match b h1 ctx1).ctx)]
          else []) ∧
        ((Match b h1 ctx1).matched = false →
          actions.getLast? = some (.Match h1 ctx1)) := by
  intro actions hmem
  simp only [List.mem_cons, List.mem_singleton, List.not_mem_nil, or_false] at hmem
  rcases hmem with rfl | rfl | rfl | rfl | rfl | rfl
  · simpa [RunRTM, hm, hm1, hm2, hm3] using
      dispatch_once Match b _ _ [] rfl rfl
  · simpa [RunRTM, ha] using dispatch_once Match b _ _ [] rfl rfl
  · simpa [RunRTM, hr] using dispatch_once Match b _ _ [] rfl rfl
  · cases hd : b.Debug
    · simpa [RunSocketMode, socketmode.Event.ofMessage, hsm, hd] using
        dispatch_once Match b _ _ [.print "Event received: %+v\n", .ack] rfl rfl
    · simpa [RunSocketMode, socketmode.Event.ofMessage, hsm, hd] using
        dispatch_once Match b _ _
          [.print "Event Type: %s", .print "Event received: %+v\n", .ack] rfl rfl
  · cases hd : b.Debug
    · simpa [RunSocketMode, socketmode.Event.ofReactionAdded, hsa, hd] using
        dispatch_once Match b _ _ [.print "Event received: %+v\n", .ack] rfl rfl
    · simpa [RunSocketMode, socketmode.Event.ofReactionAdded, hsa, hd] using
        dispatch_once Match b _ _
          [.print "Event Type: %s", .print "Event received: %+v\n", .ack] rfl rfl
  · cases hd : b.Debug
    · simpa [RunSocketMode, socketmode.Event.ofReactionRemoved, hsr, hd] using
        dispatch_once Match b _ _ [.print "Event received: %+v\n", .ack] rfl rfl
    · simpa [RunSocketMode, socketmode.Event.ofReactionRemoved, hsr, hd] using
        dispatch_once Match b _ _
          [.print "Event Type: %s", .print "Event received: %+v\n", .ack] rfl rfl

/-- C9, for the bot `UBOT` and the example events, all from the user `U1`:
the message in the RTM loop with a matcher that matches it, and the added
reaction in the socket-mode loop with a matcher that does not. -/
theorem C9_dispatch_once_witness :
    (∃ h1 ctx1,
      matchCalls (RunRTM alwaysMatch ⟨1⟩ exampleBot [] (.MessageEvent exampleMessage)).2 =
        [(h1, ctx1)] ∧
      handlerCalls (RunRTM alwaysMatch ⟨1⟩ exampleBot [] (.MessageEvent exampleMessage)).2 =
        (if (alwaysMatch exampleBot h1 ctx1).matched then
          [((alwaysMatch exampleBot h1 ctx1).Handler, (alwaysMatch exampleBot h1 ctx1).heap,
            (alwaysMatch exampleBot h1 ctx1).ctx)]
        else []) ∧
      ((alwaysMatch exampleBot h1 ctx1).matched = false →
        (RunRTM alwaysMatch ⟨1⟩ exampleBot [] (.MessageEvent exampleMessage)).2.getLast? =
          some (.Match h1 ctx1))) ∧
    (∃ h1 ctx1,
      matchCalls (RunSocketMode neverMatch ⟨1⟩ exampleBot []
        (.ofReactionAdded exampleSocketReactionAdded)) = [(h1, ctx1)] ∧
      handlerCalls (RunSocketMode neverMatch ⟨1⟩ exampleBot []
        (.ofReactionAdded exampleSocketReactionAdded)) =
        (if (neverMatch exampleBot h1 ctx1).matched then
          [((neverMatch exampleBot h1 ctx1).Handler, (neverMatch exampleBot h1 ctx1).heap,
            (neverMatch exampleBot h1 ctx1).ctx)]
        else []) ∧
      ((neverMatch exampleBot h1 ctx1).matched = false →
        (RunSocketMode neverMatch ⟨1⟩ exampleBot []
          (.ofReactionAdded exampleSocketReactionAdded)).getLast? =
          some (.Match h1 ctx1))) :=
  ⟨C9_dispatch_once alwaysMatch ⟨1⟩ exampleBot [] exampleMessage exampleReactionAdded
      exampleReactionRemoved exampleSocketMessage exampleSocketReactionAdded
      exampleSocketReactionRemoved (by decide) (by decide) (by decide) (by decide)
      (by decide) (by decide) (by decide) (by decide) (by decide) _ (by simp),
    C9_dispatch_once neverMatch ⟨1⟩ exampleBot [] exampleMessage exampleReactionAdded
      exampleReactionRemoved exampleSocketMessage exampleSocketReactionAdded
      exampleSocketReactionRemoved (by decide) (by decide) (by decide) (by decide)
      (by decide) (by decide) (by decide) (by decide) (by decide) _ (by simp)⟩

/-! ## The typing simulator: claims C3, C4 -/

/-- Wrapping the converted length before the product changes nothing: the
product wraps to the same `int64`. -/
theorem wrapInt64_Minute_mul (n : Nat) :
    wrapInt64 (Minute * wrapInt64 n) = wrapInt64 (Minute * n) := by
  unfold wrapInt64 Minute
  omega

/-- The number of bytes of a string is at least its number of characters and
at most four times as much. -/
theorem utf8ByteSize_bounds (s : String) :
    s.length ≤ s.utf8ByteSize ∧ s.utf8ByteSize ≤ 4 * s.length := by
  obtain ⟨cs⟩ := s
  show cs.length ≤ String.utf8ByteSize.go cs ∧ String.utf8ByteSize.go cs ≤ 4 * cs.length
  induction cs with
  | nil => simp [String.utf8ByteSize.go]
  | cons c cs ih =>
    have h1 := Char.utf8Size_pos c
    have h4 := Char.utf8Size_le_four c
    simp only [String.utf8ByteSize.go, List.length_cons]
    omega

/-- The capped duration is the minimum of the cap and the `int64` quotient. -/
theorem sleepDuration_eq_min (n : Nat) :
    sleepDuration n = min maxTypingSleep (Int.tdiv (wrapInt64 (Minute * (n : Int))) 3000) := by
  unfold sleepDuration
  rw [wrapInt64_Minute_mul]
  generalize Int.tdiv (wrapInt64 (Minute * (n : Int))) 3000 = x
  simp only [maxTypingSleep, Millisecond, min_def, Duration]
  split_ifs <;> omega

/-- Below the length at which the product overflows, the computed duration is
the length times 20 ms, capped. -/
theorem sleepDuration_of_le (n : Nat) (hn : n ≤ 153722867) :
    sleepDuration n = min (2000 * Millisecond) (n * (20 * Millisecond)) := by
  have hw : wrapInt64 (Minute * wrapInt64 n) = 3000 * (20000000 * (n : Int)) := by
    rw [wrapInt64_Minute_mul]
    unfold wrapInt64 Minute
    omega
  have hq : Int.tdiv (3000 * (20000000 * (n : Int))) 3000 = 20000000 * (n : Int) := by
    rw [Int.tdiv_eq_ediv (by omega) (by omega)]
    omega
  unfold sleepDuration
  simp only [hw, hq, maxTypingSleep, Millisecond, min_def, Duration]
  split_ifs <;> omega

/-- From 153722868 bytes on the product overflows: at that length the wrapped
quotient is negative and is the duration that `Type` sleeps for. -/
theorem sleepDuration_at_overflow : sleepDuration 153722868 = -3074457331236517 := by
  decide

/-- C3. For a text payload of `L` bytes, `Type` sends the typing message and
sleeps for `min(2000ms, d)`, where `d` is `time.Minute * L / 3000` in `int64`
nanosecond arithmetic (wrapping product, truncating quotient); as long as the
product does not overflow (`L ≤ 153722867`) this is `min(2000ms, L × 20ms)`;
and a text of 3000 characters sleeps for exactly 2000 ms. -/
theorem C3_typing_delay {A Rest : Type} (sprintf : List A → String)
    (evt : slack.MessageEvent Rest) (text : String) :
    Bot.Type_ sprintf evt (.string text) =
      [.SendTypingMessage evt.Channel,
        .Sleep (min maxTypingSleep
          (Int.tdiv (wrapInt64 (Minute * (text.utf8ByteSize : Int))) 3000))] ∧
    (text.utf8ByteSize ≤ 153722867 →
      Bot.Type_ sprintf evt (.string text) =
        [.SendTypingMessage evt.Channel,
          .Sleep (min (2000 * Millisecond) (text.utf8ByteSize * (20 * Millisecond)))]) ∧
    (text.length = 3000 →
      Bot.Type_ sprintf evt (.string text) =
        [.SendTypingMessage evt.Channel, .Sleep (2000 * Millisecond)]) := by
  refine ⟨?_, ?_, ?_⟩
  · simp only [Bot.Type_, msgLen, sleepDuration_eq_min]
  · intro hle
    simp only [Bot.Type_, msgLen, sleepDuration_of_le _ hle]
  · intro hlen
    have hb := utf8ByteSize_bounds text
    have hle : text.utf8ByteSize ≤ 153722867 := by omega
    simp only [Bot.Type_, msgLen, sleepDuration_of_le _ hle, Millisecond, min_def, Duration]
    split_ifs
    · rfl
    · omega

/-- C3, at a text of 3000 characters (2000 ms) and at a text of 18 bytes,
which is below the overflow bound. -/
theorem C3_typing_delay_witness :
    (text3000.length = 3000 ∧
      Bot.Type_ noSprintf exampleMessage (.string text3000) =
        [.SendTypingMessage exampleMessage.Channel, .Sleep (2000 * Millisecond)]) ∧
    ("How are you today?".utf8ByteSize ≤ 153722867 ∧
      Bot.Type_ noSprintf exampleMessage (.string "How are you today?") =
        [.SendTypingMessage exampleMessage.Channel,
          .Sleep (min (2000 * Millisecond)
            ("How are you today?".utf8ByteSize * (20 * Millisecond)))]) :=
  have hlen : text3000.length = 3000 := List.length_replicate 3000 'a'
  ⟨⟨hlen, (C3_typing_delay noSprintf exampleMessage text3000).2.2 hlen⟩,
    ⟨by decide,
      (C3_typing_delay noSprintf exampleMessage "How are you today?").2.1 (by decide)⟩⟩

/-- C4. A payload that is neither a string nor a slice of attachments, nil
included, has length 0 for `msgLen`, and `Type` then sleeps for exactly 0. -/
theorem C4_unsupported_payload_no_delay {A Rest : Type} (sprintf : List A → String)
    (evt : slack.MessageEvent Rest) (msg : Payload A) (hs : ∀ m, msg ≠ .string m)
    (ha : ∀ m, msg ≠ .attachments m) :
    msgLen sprintf msg = 0 ∧
    Bot.Type_ sprintf evt msg = [.SendTypingMessage evt.Channel, .Sleep 0] := by
  have h0 : sleepDuration 0 = 0 := by
    rw [sleepDuration_of_le 0 (by omega)]
    simp [Millisecond]
  cases msg with
  | nil => exact ⟨rfl, by simp [Bot.Type_, msgLen, h0]⟩
  | string m => exact absurd rfl (hs m)
  | attachments m => exact absurd rfl (ha m)
  | other dynType => exact ⟨rfl, by simp [Bot.Type_, msgLen, h0]⟩

/-- C4, at the nil payload. -/
theorem C4_unsupported_payload_no_delay_witness :
    msgLen noSprintf Payload.nil = 0 ∧
    Bot.Type_ noSprintf exampleMessage Payload.nil =
      [.SendTypingMessage exampleMessage.Channel, .Sleep 0] :=
  C4_unsupported_payload_no_delay noSprintf exampleMessage Payload.nil
    (fun _ hne => Payload.noConfusion hne) (fun _ hne => Payload.noConfusion hne)

/-! ## The event normaliser: claims C7, C8 -/

/-- C7 as stated fails: the icon is not among the fields the claim lists, and
the converted message carries the icon of the socket-mode message, not nil. -/
theorem C7_icons_not_zero :
    socketMessageWithIcon.Icons ≠ none ∧
    (ConvertMessageEvent socketMessageWithIcon : slack.MessageEvent Unit).Icons ≠ none := by
  decide

/-- C7, amended. `ConvertMessageEvent` maps field for field: Channel, User,
Text, Timestamp, ThreadTimestamp, EventTimestamp, SubType, BotID, Username,
ClientMsgID, Type, Upload and Icons of the result are those of the socket-mode
message, and every other field is zero. `ConvertReactionAdded` and
`ConvertReactionRemoved` map Type, User, ItemUser, Reaction, EventTimestamp
and the Type, Channel and Timestamp of the item, and the other fields of the
item (File, FileComment) are empty. -/
theorem C7_normalizer_field_for_field {Rest : Type} [Inhabited Rest]
    (e : slackevents.MessageEvent) (ra : slackevents.ReactionAddedEvent)
    (rr : slackevents.ReactionRemovedEvent) :
    ((ConvertMessageEvent e : slack.MessageEvent Rest).Channel = e.Channel ∧
      (ConvertMessageEvent e : slack.MessageEvent Rest).User = e.User ∧
      (ConvertMessageEvent e : slack.MessageEvent Rest).Text = e.Text ∧
      (ConvertMessageEvent e : slack.MessageEvent Rest).Timestamp = e.TimeStamp ∧
      (ConvertMessageEvent e : slack.MessageEvent Rest).ThreadTimestamp = e.ThreadTimeStamp ∧
      (ConvertMessageEvent e : slack.MessageEvent Rest).EventTimestamp = e.EventTimeStamp ∧
      (ConvertMessageEvent e : slack.MessageEvent Rest).SubType = e.SubType ∧
      (ConvertMessageEvent e : slack.MessageEvent Rest).BotID = e.BotID ∧
      (ConvertMessageEvent e : slack.MessageEvent Rest).Username = e.Username ∧
      (ConvertMessageEvent e : slack.MessageEvent Rest).ClientMsgID = e.ClientMsgID ∧
      (ConvertMessageEvent e : slack.MessageEvent Rest).Type_ = e.Type_ ∧
      (ConvertMessageEvent e : slack.MessageEvent Rest).Upload = e.Upload ∧
      (ConvertMessageEvent e : slack.MessageEvent Rest).Icons = e.Icons ∧
      (ConvertMessageEvent e : slack.MessageEvent Rest).rest = default) ∧
    ((ConvertReactionAdded ra).Type_ = ra.Type_ ∧ (ConvertReactionAdded ra).User = ra.User ∧
      (ConvertReactionAdded ra).ItemUser = ra.ItemUser ∧
      (ConvertReactionAdded ra).Reaction = ra.Reaction ∧
      (ConvertReactionAdded ra).EventTimestamp = ra.EventTimestamp ∧
      (ConvertReactionAdded ra).Item.Type_ = ra.Item.Type_ ∧
      (ConvertReactionAdded ra).Item.Channel = ra.Item.Channel ∧
      (ConvertReactionAdded ra).Item.Timestamp = ra.Item.Timestamp ∧
      (ConvertReactionAdded ra).Item.File = "" ∧
      (ConvertReactionAdded ra).Item.FileComment = "") ∧
    ((ConvertReactionRemoved rr).Type_ = rr.Type_ ∧
      (ConvertReactionRemoved rr).User = rr.User ∧
      (ConvertReactionRemoved rr).ItemUser = rr.ItemUser ∧
      (ConvertReactionRemoved rr).Reaction = rr.Reaction ∧
      (ConvertReactionRemoved rr).EventTimestamp = rr.EventTimestamp ∧
      (ConvertReactionRemoved rr).Item.Type_ = rr.Item.Type_ ∧
      (ConvertReactionRemoved rr).Item.Channel = rr.Item.Channel ∧
      (ConvertReactionRemoved rr).Item.Timestamp = rr.Item.Timestamp ∧
      (ConvertReactionRemoved rr).Item.File = "" ∧
      (ConvertReactionRemoved rr).Item.FileComment = "") := by
  simp [ConvertMessageEvent, ConvertReactionAdded, ConvertReactionRemoved]

/-- The dispatch block calls `b.Match` once, on the carrier it is given. -/
theorem matchCalls_dispatch {Rest H : Type} (Match : Matcher Rest H) (b : Bot)
    (h : Heap Rest) (ctx : Ctx) : matchCalls (dispatch Match b h ctx) = [(h, ctx)] := by
  unfold dispatch
  by_cases hr : (Match b h ctx).matched <;> simp [hr, matchCalls]

/-- The carrier that `AddMessageToContext` returns exposes the message. -/
theorem MessageFromContext_AddMessageToContext {Rest : Type} (h : Heap Rest) (ctx : Ctx)
    (msg : Option (slack.MessageEvent Rest)) :
    MessageFromContext (AddMessageToContext h ctx msg).1 (AddMessageToContext h ctx msg).2 =
      msg := by
  simp [AddMessageToContext, WithValue, MessageFromContext, Ctx.Value]

/-- The RTM loop hands `b.Match` a carrier that exposes the message itself. -/
theorem RunRTM_message_given {Rest H : Type} (Match : Matcher Rest H) (self : BotRef)
    (b : Bot) (h : Heap Rest) (m : slack.MessageEvent Rest) (hu : b.botUserID ≠ m.User)
    (hm1 : m.SubType ≠ MsgSubTypeMessageReplied) (hm2 : m.SubType ≠ MsgSubTypeThreadBroadcast)
    (hm3 : m.SubType ≠ MsgSubTypeBotMessage) :
    messagesGivenToMatch (RunRTM Match self b h (.MessageEvent m)).2 = [some m] := by
  simp [RunRTM, hu, hm1, hm2, hm3, messagesGivenToMatch, matchCalls_dispatch,
    MessageFromContext_AddMessageToContext]

/-- The socket-mode loop hands `b.Match` a carrier that exposes the converted
message. -/
theorem RunSocketMode_message_given {Rest H : Type} [Inhabited Rest]
    (Match : Matcher Rest H) (self : BotRef) (b : Bot) (h : Heap Rest)
    (e : slackevents.MessageEvent) (hu : b.botUserID ≠ e.User) :
    messagesGivenToMatch (RunSocketMode Match self b h (.ofMessage e)) =
      [some (ConvertMessageEvent e)] := by
  cases hd : b.Debug <;>
    simp [RunSocketMode, socketmode.Event.ofMessage, hu, hd, messagesGivenToMatch,
      matchCalls_append, matchCalls, matchCalls_dispatch,
      MessageFromContext_AddMessageToContext]

/-- C8 as stated fails: an RTM message and a socket-mode message with the same
channel, user, text and timestamp, the first of which also names a bot as its
author; both pass the filters, and the message that `RunRTM` places in the
context differs from the one that `RunSocketMode` places. -/
theorem C8_same_four_fields_not_equal :
    rtmMessageWithBotID.Channel = exampleSocketMessage.Channel ∧
    rtmMessageWithBotID.User = exampleSocketMessage.User ∧
    rtmMessageWithBotID.Text = exampleSocketMessage.Text ∧
    rtmMessageWithBotID.Timestamp = exampleSocketMessage.TimeStamp ∧
    messagesGivenToMatch
        (RunRTM alwaysMatch ⟨1⟩ exampleBot [] (.MessageEvent rtmMessageWithBotID)).2 =
      [some rtmMessageWithBotID] ∧
    messagesGivenToMatch
        (RunSocketMode alwaysMatch ⟨1⟩ exampleBot [] (.ofMessage exampleSocketMessage)) =
      [some (ConvertMessageEvent exampleSocketMessage)] ∧
    messagesGivenToMatch
        (RunRTM alwaysMatch ⟨1⟩ exampleBot [] (.MessageEvent rtmMessageWithBotID)).2 ≠
      messagesGivenToMatch
        (RunSocketMode alwaysMatch ⟨1⟩ exampleBot [] (.ofMessage exampleSocketMessage)) := by
  decide

/-- C8, amended. For an RTM message `m`, neither from the bot nor of a
filtered subtype, and a socket-mode message `e` with the same channel, user,
text and timestamp: `RunRTM` places `m` itself in the context it gives to
`b.Match`; `ConvertMessageEvent e` agrees with `m` on channel, user, text and
timestamp; when `m` and `e` also agree on the other mapped fields
(ClientMsgID, Type, ThreadTimestamp, EventTimestamp, SubType, BotID, Username,
Icons, Upload) and the unmapped fields of `m` are zero, `RunSocketMode` places
`ConvertMessageEvent e` in the context it gives to `b.Match` and this is the
message that `RunRTM` places; and equal socket-mode messages convert to equal
canonical messages. -/
theorem C8_transport_equivalence {Rest H : Type} [Inhabited Rest]
    (Match : Matcher Rest H) (self : BotRef) (b : Bot) (h : Heap Rest)
    (m : slack.MessageEvent Rest) (e : slackevents.MessageEvent)
    (hu : b.botUserID ≠ m.User)
    (hm1 : m.SubType ≠ MsgSubTypeMessageReplied) (hm2 : m.SubType ≠ MsgSubTypeThreadBroadcast)
    (hm3 : m.SubType ≠ MsgSubTypeBotMessage)
    (hChannel : m.Channel = e.Channel) (hUser : m.User = e.User) (hText : m.Text = e.Text)
    (hTimestamp : m.Timestamp = e.TimeStamp) :
    messagesGivenToMatch (RunRTM Match self b h (.MessageEvent m)).2 = [some m] ∧
    ((ConvertMessageEvent e : slack.MessageEvent Rest).Channel = m.Channel ∧
      (ConvertMessageEvent e : slack.MessageEvent Rest).User = m.User ∧
      (ConvertMessageEvent e : slack.MessageEvent Rest).Text = m.Text ∧
      (ConvertMessageEvent e : slack.MessageEvent Rest).Timestamp = m.Timestamp) ∧
    (m.ClientMsgID = e.ClientMsgID → m.Type_ = e.Type_ →
      m.ThreadTimestamp = e.ThreadTimeStamp → m.EventTimestamp = e.EventTimeStamp →
      m.SubType = e.SubType → m.BotID = e.BotID → m.Username = e.Username →
      m.Icons = e.Icons → m.Upload = e.Upload → m.rest = default →
      messagesGivenToMatch (RunSocketMode Match self b h (.ofMessage e)) =
        [some (ConvertMessageEvent e)] ∧
      messagesGivenToMatch (RunRTM Match self b h (.MessageEvent m)).2 =
        messagesGivenToMatch (RunSocketMode Match self b h (.ofMessage e))) ∧
    (∀ e1 e2 : slackevents.MessageEvent, e1 = e2 →
      (ConvertMessageEvent e1 : slack.MessageEvent Rest) = ConvertMessageEvent e2) := by
  have hrtm := RunRTM_message_given Match self b h m hu hm1 hm2 hm3
  have hsock := RunSocketMode_message_given Match self b h e (hUser ▸ hu)
  refine ⟨hrtm, ?_, ?_, ?_⟩
  · simp [ConvertMessageEvent, hChannel, hUser, hText, hTimestamp]
  · intro h1 h2 h3 h4 h5 h6 h7 h8 h9 h10
    refine ⟨hsock, ?_⟩
    rw [hrtm, hsock]
    have : m = ConvertMessageEvent e := by
      cases m
      simp_all [ConvertMessageEvent]
    rw [this]
  · intro e1 e2 heq
    rw [heq]

/-- C8, for the bot `UBOT`, the example RTM message and the example
socket-mode message, which agree on every mapped field. -/
theorem C8_transport_equivalence_witness :
    messagesGivenToMatch
        (RunRTM alwaysMatch ⟨1⟩ exampleBot [] (.MessageEvent exampleMessage)).2 =
      messagesGivenToMatch
        (RunSocketMode alwaysMatch ⟨1⟩ exampleBot [] (.ofMessage exampleSocketMessage)) :=
  (C8_transport_equivalence alwaysMatch ⟨1⟩ exampleBot [] exampleMessage exampleSocketMessage
    (by decide) (by decide) (by decide) (by decide)
    rfl rfl rfl rfl).2.2.1 rfl rfl rfl rfl rfl rfl rfl rfl rfl rfl |>.2

end Slackbot
